import Mathlib

/-!
Shallow embedding of the todo-rust command-line todo manager
(src/lib.rs, src/main.rs) and proofs about its claimed properties.

Machine integers: Rust `usize` is modelled as `Nat` with the explicit
bound `USIZE_MAX`; the one place the source can overflow (`num - 1` on
`num = 0` in `get_option`) is modelled by a distinguished outcome, since
in Rust that subtraction panics in debug builds and wraps to
`usize::MAX` in release builds — in neither case does it re-prompt.
The build profile is modelled explicitly (`Profile`): each consumer of
the outcome resolves it per profile — a debug build panics there, a
release build carries the wrapped value `USIZE_MAX` into the dispatch
(where it hits `_ => break`) or into `.get(...)` (where the `.unwrap()`
panics).

External effects: the file system is modelled as a map from paths to
file contents; standard input as a list of lines consumed one prompt at
a time.  `serde_json::from_str` / `serde_json::to_string` are external
library code, so they enter the model as explicit function parameters
(`p` for the parser, `ser` for the serializer): everything proved below
holds for every parser/serializer, which is exactly what the repository
code guarantees.
-/

namespace TodoRust

/-- `Status` from src/lib.rs: the two-state completion status of a todo. -/
inductive Status
  | Incomplete
  | Done
deriving DecidableEq, Repr

/-- `Todo` from src/lib.rs: id, text and status of a single task. -/
structure Todo where
  id : String
  todo : String
  status : Status
deriving DecidableEq, Repr

/-- `TodoError` from src/lib.rs: the library's string-carrying error type. -/
structure TodoError where
  msg : String
deriving DecidableEq, Repr

/-- `complete_todo` from src/lib.rs, lines 139-150.  The Rust loop mutates
the vector in place while scanning: a matching entry is set to `Done` and
the function returns `Ok(true)` at once (the tail is untouched); every
entry scanned before a match is explicitly reset to `Incomplete`; when no
entry matches, the scan has reset every entry and the function returns the
"todo not found" error.  The model returns the result together with the
vector as mutated. -/
def complete_todo (i : String) : List Todo → Except TodoError Bool × List Todo
  | [] => (Except.error ⟨"todo not found"⟩, [])
  | t :: ts =>
    if t.id = i then
      (Except.ok true, { t with status := Status.Done } :: ts)
    else
      ((complete_todo i ts).1,
        { t with status := Status.Incomplete } :: (complete_todo i ts).2)

/-- `get_unfinished_todos` from src/lib.rs, lines 152-162: collects (clones
of) the entries whose status is `Incomplete`, preserving order.  The Rust
signature returns `Result` but the body never errs. -/
def get_unfinished_todos (ts : List Todo) : List Todo :=
  ts.filter fun t =>
    match t.status with
    | Status.Incomplete => true
    | Status.Done => false

/-- `list_options` from src/lib.rs, lines 189-196: one menu entry when
there are no unfinished todos, both entries otherwise. -/
def list_options (todo_count : Nat) : List String :=
  if todo_count = 0 then ["add a new todo"]
  else ["add a new todo", "complete a todo"]

/-- Modelled from the source's external dependency: `Uuid::new_v4()`
draws a fresh random 122-bit version-4 UUID.  The model replaces the
random draw by a deterministic injective fresh-identifier supply (a
counter threaded through the run), which captures the distinctness of
successive ids that the program relies on. -/
def uuid_new_v4 (supply : Nat) : String × Nat :=
  (String.mk (List.replicate (supply + 1) 'u'), supply + 1)

/-- `Todo::new` from src/lib.rs, lines 115-127: rejects zero-length text
with the `"todo cannot be empty"` validation error; otherwise builds a
todo with a freshly generated id and status `Incomplete`.  The id supply
is threaded explicitly (see `uuid_new_v4`). -/
def Todo.new (supply : Nat) (text : String) : Except String Todo × Nat :=
  if text.length = 0 then (Except.error "todo cannot be empty", supply)
  else
    let g := uuid_new_v4 supply
    (Except.ok { id := g.1, todo := text, status := Status.Incomplete }, g.2)

/-- The file system, modelled as a map from paths to file contents
(`none` = no file at that path). -/
abbrev Fs := String → Option String

/-- `std::fs::write` / `File::create`: (re)places the whole content of
the file at `path`. -/
def fsWrite (fs : Fs) (path content : String) : Fs :=
  fun q => if q = path then some content else fs q

/-- `FileProvider::read_todos` from src/lib.rs, lines 84-94: if no file
exists at `path`, create an (empty) one; read the file's whole content;
parse it with `serde_json::from_str`, falling back to the empty vector
when parsing fails (`unwrap_or(Vec::new())`).  The external parser enters
as the parameter `p`. -/
def read_todos (p : String → Option (List Todo)) (fs : Fs) (path : String) :
    List Todo × Fs :=
  let fs2 := if (fs path).isSome then fs else fsWrite fs path ""
  let content := (fs2 path).getD ""
  ((p content).getD [], fs2)

/-- `FileProvider::write_todos` from src/lib.rs, lines 96-99: serialize
the whole collection (`serde_json::to_string`, the parameter `ser`; on
`Vec<Todo>` it cannot fail) and overwrite the file at `path` with it. -/
def write_todos (ser : List Todo → String) (ts : List Todo) (path : String)
    (fs : Fs) : Fs :=
  fsWrite fs path (ser ts)

/-- Rust `usize::MAX` on a 64-bit target. -/
def USIZE_MAX : Nat := 18446744073709551615

/-- All-digit accumulator behind `rustParseUsize`: consumes ASCII digits,
fails on any other character. -/
def parseDigitsAux : List Char → Nat → Option Nat
  | [], acc => some acc
  | c :: cs, acc =>
    if c.isDigit then parseDigitsAux cs (acc * 10 + (c.toNat - 48))
    else none

/-- Modelled from the source's standard-library call
`option.parse::<usize>()`: an optional leading `+`, then one or more
ASCII digits, nothing else; values over `usize::MAX` are a
`PosOverflow` error. -/
def rustParseUsize (s : String) : Option Nat :=
  let cs := match s.data with
    | '+' :: rest => rest
    | cs => cs
  match cs with
  | [] => none
  | _ :: _ =>
    match parseDigitsAux cs 0 with
    | some n => if n ≤ USIZE_MAX then some n else none
    | none => none

/-- Modelled from the source's standard-library call `response.trim()`:
drops leading and trailing whitespace characters from both ends (Rust
trims the Unicode whitespace set; the model covers the ASCII subset
`Char.isWhitespace` checks, which is all the menu traffic uses). -/
def rustTrim (s : String) : String :=
  String.mk
    (((s.data.dropWhile Char.isWhitespace).reverse.dropWhile
        Char.isWhitespace).reverse)

/-- Result of `prompt` from src/lib.rs, lines 165-181: the trimmed input
line, unless it is the universal sentinel `"0"`, on which the process
exits at once with status 1. -/
inductive PromptRes
  | exited
  | value (s : String)
deriving DecidableEq, Repr

/-- `prompt` from src/lib.rs: reads a line, trims it, exits the process
on the `"0"` sentinel, and returns the trimmed text otherwise. -/
def prompt (line : String) : PromptRes :=
  if rustTrim line = "0" then PromptRes.exited else PromptRes.value (rustTrim line)

/-- Outcome of `get_option` on a (finite) list of input lines.
`ret i` is the returned zero-based index.  `exited` is the `"0"` sentinel
(`std::process::exit(1)` inside `prompt`).  `underflow` is the `num - 1`
computation when the guard `num <= options.len()` admits `num = 0`: the
`usize` subtraction overflows — a panic in debug builds; in release
builds it wraps and the function returns `0 - 1 = USIZE_MAX` (the
wrapped value is always `USIZE_MAX`, so the constructor carries no
payload and each caller resolves the outcome per build `Profile`).  In
neither profile does the function re-prompt or return `n-1` for an
in-range `n`.  `blocked` means the input list was exhausted while the
loop was still re-prompting. -/
inductive OptOutcome
  | ret (i : Nat)
  | exited
  | underflow
  | blocked
deriving DecidableEq, Repr

/-- `get_option` from src/lib.rs, lines 55-73, for a menu of `len`
options: loop reading lines; a line parsing to `num` with
`num <= len` hits `return num-1` (see `OptOutcome.underflow` for
`num = 0`); any other parse outcome prints "Invalid option selected, try
again." and loops.  Returns the outcome and the unconsumed input. -/
def get_option (len : Nat) : List String → OptOutcome × List String
  | [] => (OptOutcome.blocked, [])
  | line :: rest =>
    match prompt line with
    | PromptRes.exited => (OptOutcome.exited, rest)
    | PromptRes.value s =>
      match rustParseUsize s with
      | some num =>
        if num ≤ len then
          if num = 0 then (OptOutcome.underflow, rest)
          else (OptOutcome.ret (num - 1), rest)
        else get_option len rest
      | none => get_option len rest

/-- `add_todo` from src/lib.rs, lines 129-137, after its prompt: builds a
todo from the (already trimmed) response and appends it to the
collection. -/
def add_todo (supply : Nat) (todos : List Todo) (response : String) :
    Except String (List Todo) × Nat :=
  match Todo.new supply response with
  | (Except.ok t, supply2) => (Except.ok (todos ++ [t]), supply2)
  | (Except.error e, supply2) => (Except.error e, supply2)

/-- The Rust build profile, which decides what integer overflow does:
debug builds carry overflow checks and panic; release builds
(`overflow-checks = false`, the default for `--release`) wrap. -/
inductive Profile
  | debug
  | release
deriving DecidableEq, Repr

/-- Outcome of `get_todo_to_complete`: the chosen todo's id and the
unconsumed input, or the sub-menu's exceptional endings (`panicked`
covers the debug-build `usize` underflow inside `get_option` and the
`.get(option).unwrap()` on an out-of-range index). -/
inductive SubRes
  | ok (i : String) (rest : List String)
  | exited
  | panicked
  | blocked
deriving DecidableEq, Repr

/-- `get_todo_to_complete` from src/lib.rs, lines 164-170: presents the
unfinished todos as a sub-menu and resolves the chosen index back to an
id with `unfinished_todos.get(option).unwrap()`.  On the sub-menu
underflow, a debug build has already panicked inside `get_option`; a
release build gets the wrapped return value `USIZE_MAX` and looks it up
like any other index (out of range for every real vector, so the
`.unwrap()` panics). -/
def get_todo_to_complete (prof : Profile) (unfinished : List Todo)
    (inputs : List String) : SubRes :=
  match get_option unfinished.length inputs with
  | (OptOutcome.ret j, rest) =>
    match unfinished[j]? with
    | some t => SubRes.ok t.id rest
    | none => SubRes.panicked
  | (OptOutcome.exited, _) => SubRes.exited
  | (OptOutcome.underflow, rest) =>
    match prof with
    | Profile.debug => SubRes.panicked
    | Profile.release =>
      match unfinished[USIZE_MAX]? with
      | some t => SubRes.ok t.id rest
      | none => SubRes.panicked
  | (OptOutcome.blocked, _) => SubRes.blocked

/-- How a run of the application loop ends.  `success` is the `_ => break`
arm of the dispatch followed by `Ok(())` (the caller prints "done" and the
process exits with status 0).  `exited` is `std::process::exit(1)` from
the `"0"` sentinel inside any prompt.  `panicked` covers the debug-build
`usize` underflow in `get_option`, `.unwrap()` on an out-of-range `.get`,
and `.unwrap()` on a `complete_todo` error.
`blocked` means the model's fuel or input ran out mid-loop. -/
inductive RunOutcome
  | success
  | exited
  | panicked
  | blocked
deriving DecidableEq, Repr

/-- The `loop` inside `run` from src/lib.rs, lines 34-49, one constructor
of fuel per iteration.  Each iteration recomputes the unfinished subset
and the option list, dispatches on `get_option`'s returned index
(0 = add, 1 = complete, anything else = `break`), and after a non-break
arm unconditionally persists the collection; the add arm also persists
inside the arm (the redundant double write).  On the main-menu
underflow, a debug build panics inside `get_option`; a release build
gets the wrapped return value `USIZE_MAX`, which is neither 0 nor 1, so
the dispatch runs its `_ => break` arm: the loop ends (skipping the
trailing write, as `break` does) and `run` returns `Ok(())`. -/
def runLoop (prof : Profile) (ser : List Todo → String) :
    Nat → Nat → List Todo → Fs → String → List String → RunOutcome × Fs
  | 0, _, _, fs, _, _ => (RunOutcome.blocked, fs)
  | fuel + 1, supply, todos, fs, path, inputs =>
    match get_option (list_options (get_unfinished_todos todos).length).length inputs with
    | (OptOutcome.blocked, _) => (RunOutcome.blocked, fs)
    | (OptOutcome.exited, _) => (RunOutcome.exited, fs)
    | (OptOutcome.underflow, _) =>
      match prof with
      | Profile.debug => (RunOutcome.panicked, fs)
      | Profile.release => (RunOutcome.success, fs)
    | (OptOutcome.ret i, rest) =>
      if i = 0 then
        match rest with
        | [] => (RunOutcome.blocked, fs)
        | line :: rest2 =>
          if rustTrim line = "0" then (RunOutcome.exited, fs)
          else
            match add_todo supply todos (rustTrim line) with
            | (Except.ok todos2, supply2) =>
              runLoop prof ser fuel supply2 todos2
                (write_todos ser todos2 path (write_todos ser todos2 path fs))
                path rest2
            | (Except.error _, supply2) =>
              runLoop prof ser fuel supply2 todos
                (write_todos ser todos path fs) path rest2
      else if i = 1 then
        match get_todo_to_complete prof (get_unfinished_todos todos) rest with
        | SubRes.blocked => (RunOutcome.blocked, fs)
        | SubRes.exited => (RunOutcome.exited, fs)
        | SubRes.panicked => (RunOutcome.panicked, fs)
        | SubRes.ok tid rest2 =>
          match complete_todo tid todos with
          | (Except.ok _, todos2) =>
            runLoop prof ser fuel supply todos2
              (write_todos ser todos2 path fs) path rest2
          | (Except.error _, _) => (RunOutcome.panicked, fs)
      else (RunOutcome.success, fs)

/-- `run` from src/lib.rs, lines 22-52: load the collection from the
configured path, then iterate the application loop. -/
def run (prof : Profile) (p : String → Option (List Todo))
    (ser : List Todo → String) (fuel supply : Nat) (fs : Fs) (path : String)
    (inputs : List String) : RunOutcome × Fs :=
  let r := read_todos p fs path
  runLoop prof ser fuel supply r.1 r.2 path inputs

/-! ## Helper lemmas -/

/-- The length of the menu `list_options` builds: 1 without unfinished
todos, 2 with. -/
theorem list_options_length (n : Nat) :
    (list_options n).length = if n = 0 then 1 else 2 := by
  unfold list_options
  split <;> rfl

/-- `get_option` only ever returns an in-range index: a returned `i` came
from `return num-1` under the guards `1 <= num <= len`. -/
theorem get_option_ret_lt (len : Nat) :
    ∀ (inputs : List String) (i : Nat) (rest : List String),
      get_option len inputs = (OptOutcome.ret i, rest) → i < len := by
  intro inputs
  induction inputs with
  | nil =>
    intro i rest h
    simp [get_option] at h
  | cons line tail ih =>
    intro i rest h
    simp only [get_option] at h
    split at h
    · simp at h
    · split at h
      · split at h
        · split at h
          · simp at h
          · obtain ⟨h1, h2⟩ := Prod.mk.injEq .. ▸ h
            obtain h1 := OptOutcome.ret.inj h1
            omega
        · exact ih i rest h
      · exact ih i rest h

/-- Under debug-build overflow semantics the application loop never
reaches its `_ => break` arm: a returned dispatch index comes from
`get_option` over a menu of at most two options, so it is 0 or 1; the
underflow panics; and every other way the loop ends is the sentinel
exit, a panic, or exhausted fuel/input. -/
theorem runLoop_debug_ne_success (ser : List Todo → String) :
    ∀ (fuel supply : Nat) (todos : List Todo) (fs : Fs) (path : String)
      (inputs : List String),
      (runLoop Profile.debug ser fuel supply todos fs path inputs).1 ≠
        RunOutcome.success := by
  intro fuel
  induction fuel with
  | zero =>
    intro supply todos fs path inputs
    simp [runLoop]
  | succ fuel ih =>
    intro supply todos fs path inputs
    simp only [runLoop]
    split
    · simp
    · simp
    · simp
    · next i rest hget =>
      split
      · split
        · simp
        · split
          · simp
          · split
            · next todos2 supply2 _ => exact ih supply2 todos2 _ path _
            · next supply2 _ => exact ih supply2 todos _ path _
      · split
        · split
          · simp
          · simp
          · simp
          · split
            · next todos2 _ => exact ih supply todos2 _ path _
            · simp
        · next hi0 hi1 =>
          have hlt := get_option_ret_lt _ _ _ _ hget
          rw [list_options_length] at hlt
          split at hlt <;> omega

/-! ## The claims -/

/-- C1: the claim says completing a task by valid id sets exactly that
task's status to `Done` and must not alter the status of any other task.
The code violates it: on the collection `[a: Done, b: Incomplete]`,
completing the matching id `"b"` also resets entry `"a"` from `Done` to
`Incomplete`, because the scan explicitly resets every entry it passes
before the match.  This theorem evaluates `complete_todo` at that
failing input. -/
theorem c1_complete_todo_resets_scanned_entry :
    complete_todo "b"
        [{ id := "a", todo := "first", status := Status.Done },
          { id := "b", todo := "second", status := Status.Incomplete }] =
      (Except.ok true,
        [{ id := "a", todo := "first", status := Status.Incomplete },
          { id := "b", todo := "second", status := Status.Done }]) := rfl

/-- C3: when no entry's id matches, `complete_todo` returns the
"todo not found" error, and by then the scan has reset every entry's
status to `Incomplete` — the error path is not atomic. -/
theorem c3_complete_todo_error_resets_all (i : String) (ts : List Todo)
    (h : ∀ t ∈ ts, t.id ≠ i) :
    complete_todo i ts =
      (Except.error ⟨"todo not found"⟩,
        ts.map fun t => { t with status := Status.Incomplete }) := by
  induction ts with
  | nil => rfl
  | cons t ts ih =>
    have ht : ¬t.id = i := h t (List.mem_cons_self t ts)
    have hts : ∀ u ∈ ts, u.id ≠ i := fun u hu => h u (List.mem_cons_of_mem t hu)
    simp [complete_todo, ht, ih hts]

/-- Witness for C3 at a concrete input: completing the absent id `"z"`
errs and resets the one `Done` entry to `Incomplete`. -/
theorem c3_complete_todo_error_resets_all_witness :
    complete_todo "z" [{ id := "a", todo := "first", status := Status.Done }] =
      (Except.error ⟨"todo not found"⟩,
        [{ id := "a", todo := "first", status := Status.Incomplete }]) :=
  c3_complete_todo_error_resets_all "z"
    [{ id := "a", todo := "first", status := Status.Done }] (by decide)

/-- C8: the main menu built from a collection offers exactly one option
when no task has status `Incomplete` and exactly two options otherwise
(`u` unfinished among `k` tasks: 1 option for `u = 0`, 2 for `u > 0`). -/
theorem c8_menu_option_count (ts : List Todo) :
    (list_options (get_unfinished_todos ts).length).length =
      if (ts.countP fun t =>
            match t.status with
            | Status.Incomplete => true
            | Status.Done => false) = 0
      then 1 else 2 := by
  rw [list_options_length, get_unfinished_todos, List.countP_eq_length_filter]

/-- C9: `complete_todo` fails, with the "todo not found" error, exactly
when no entry's id equals the given id. -/
theorem c9_complete_todo_not_found_iff (i : String) (ts : List Todo) :
    (complete_todo i ts).1 = Except.error ⟨"todo not found"⟩ ↔
      ∀ t ∈ ts, t.id ≠ i := by
  induction ts with
  | nil => simp [complete_todo]
  | cons t ts ih =>
    by_cases ht : t.id = i
    · simp only [complete_todo, if_pos ht]
      constructor
      · intro h; exact absurd h (by simp)
      · intro h; exact absurd ht (h t (List.mem_cons_self t ts))
    · simp [complete_todo, ht, ih]

/-- C10: saving is idempotent — `write_todos` fully replaces the stored
document with the serialized collection, so writing the same collection
twice leaves the file system exactly as writing it once. -/
theorem c10_write_todos_idempotent (ser : List Todo → String) (ts : List Todo)
    (path : String) (fs : Fs) :
    write_todos ser ts path (write_todos ser ts path fs) =
      write_todos ser ts path fs := by
  funext q
  by_cases h : q = path <;> simp [write_todos, fsWrite, h]

/-- C5: `Todo::new` fails with the validation error on every zero-length
text; on every non-empty text it succeeds with status `Incomplete` and a
freshly generated id distinct from every id generated earlier in the run
(earlier = drawn at a smaller supply state; see `uuid_new_v4`). -/
theorem c5_todo_new_validation_and_freshness (supply : Nat) (text : String) :
    (text.length = 0 →
        Todo.new supply text = (Except.error "todo cannot be empty", supply)) ∧
    (text.length ≠ 0 →
        Todo.new supply text =
            (Except.ok
              { id := (uuid_new_v4 supply).1, todo := text,
                status := Status.Incomplete },
              supply + 1) ∧
          ∀ earlier, earlier < supply →
            (uuid_new_v4 earlier).1 ≠ (uuid_new_v4 supply).1) := by
  constructor
  · intro h
    simp [Todo.new, h]
  · intro h
    constructor
    · simp [Todo.new, h, uuid_new_v4]
    · intro e he hc
      have hlen := congrArg (fun s => s.data.length) hc
      simp only [uuid_new_v4, List.length_replicate] at hlen
      omega

/-- C6: on an existing file whose content the parser rejects,
`read_todos` returns the empty collection, leaves the file system
untouched and does not fail. -/
theorem c6_read_todos_malformed_recovers (p : String → Option (List Todo))
    (fs : Fs) (path content : String) (hf : fs path = some content)
    (hp : p content = none) :
    read_todos p fs path = ([], fs) := by
  simp [read_todos, hf, hp]

/-- Witness for C6 at a concrete input: a stored file holding "not json"
with a parser that rejects everything. -/
theorem c6_read_todos_malformed_recovers_witness :
    read_todos (fun _ => none)
        (fun q => if q = "todos.json" then some "not json" else none)
        "todos.json" =
      ([], fun q => if q = "todos.json" then some "not json" else none) :=
  c6_read_todos_malformed_recovers (fun _ => none)
    (fun q => if q = "todos.json" then some "not json" else none)
    "todos.json" "not json" rfl rfl

/-- C7: on a path with no file, `read_todos` creates an empty file at
that path and returns the empty collection; afterwards the file exists
(with empty content).  The hypothesis on `p` records that
`serde_json::from_str` rejects empty input. -/
theorem c7_read_todos_creates_file (p : String → Option (List Todo))
    (fs : Fs) (path : String) (hf : fs path = none) (hp : p "" = none) :
    (read_todos p fs path).1 = [] ∧
      (read_todos p fs path).2 path = some "" := by
  constructor <;> simp [read_todos, hf, hp, fsWrite]

/-- Witness for C7 at a concrete input: the empty file system and the
nowhere-succeeding parser. -/
theorem c7_read_todos_creates_file_witness :
    (read_todos (fun _ => none) (fun _ => none) "todos.json").1 = [] ∧
      (read_todos (fun _ => none) (fun _ => none) "todos.json").2
        "todos.json" = some "" :=
  c7_read_todos_creates_file (fun _ => none) (fun _ => none) "todos.json"
    rfl rfl

/-- C2 counterexample: the claim says any input parsing to an integer
outside `1..len`, in particular to 0, makes `get_option` print the
invalid-option message and re-prompt.  On the two-option menu with input
line `"00"` (which parses to 0 and is not the `"0"` sentinel `prompt`
intercepts), the claim predicts a re-prompt consuming the next line
`"1"` and the return of index 0 — i.e. `(OptOutcome.ret 0, [])`.  The
code instead passes the guard `num <= options.len()` with `num = 0` and
computes `num - 1`, the `usize` underflow: no message, no re-prompt. -/
theorem c2_counterexample_zero_input :
    get_option 2 ["00", "1"] = (OptOutcome.underflow, ["1"]) := by decide

/-- C2 amended: for a line parsing to `n` with `1 <= n <= len`,
`get_option` returns `n - 1`; for `n > len` or unparsable input it
re-prompts (the call on the remaining input); but a line parsing to 0
that is not the literal sentinel `"0"` takes the `return num-1` branch
and underflows the `usize` subtraction instead of re-prompting. -/
theorem c2_get_option_amended (len n : Nat) (line : String)
    (rest : List String) :
    (rustParseUsize (rustTrim line) = some n → 1 ≤ n → n ≤ len →
        get_option len (line :: rest) = (OptOutcome.ret (n - 1), rest)) ∧
    (rustParseUsize (rustTrim line) = some n → len < n →
        get_option len (line :: rest) = get_option len rest) ∧
    (rustParseUsize (rustTrim line) = some 0 → rustTrim line ≠ "0" →
        get_option len (line :: rest) = (OptOutcome.underflow, rest)) ∧
    (rustParseUsize (rustTrim line) = none →
        get_option len (line :: rest) = get_option len rest) := by
  have h00 : rustParseUsize "0" = some 0 := rfl
  refine ⟨?_, ?_, ?_, ?_⟩
  · intro hp h1 h2
    have h0 : ¬rustTrim line = "0" := by
      intro he
      rw [he, h00] at hp
      obtain hp := Option.some.inj hp
      omega
    simp only [get_option, prompt, if_neg h0, hp, if_pos h2,
      if_neg (by omega : ¬n = 0)]
  · intro hp hlen
    have h0 : ¬rustTrim line = "0" := by
      intro he
      rw [he, h00] at hp
      obtain hp := Option.some.inj hp
      omega
    simp only [get_option, prompt, if_neg h0, hp,
      if_neg (by omega : ¬n ≤ len)]
  · intro hp h0
    simp only [get_option, prompt, if_neg h0, hp, if_pos (Nat.zero_le len)]
    simp
  · intro hp
    have h0 : ¬rustTrim line = "0" := by
      intro he
      rw [he, h00] at hp
      exact Option.noConfusion hp
    simp only [get_option, prompt, if_neg h0, hp]

/-- C4 counterexample: the claim says some user input at the main menu
makes the dispatch take the exit branch via an index one past "complete
a todo", i.e. index 2.  First conjunct: `get_option` never returns
index 2 over the main menu — a returned index is `num - 1` under the
guards `1 <= num <= len` with `len <= 2`, so it is 0 or 1.  Second
conjunct: at the one kind of input that does reach the exit arm in a
release build (a line parsing to 0, here `"00"` on the empty store), a
debug build panics on the `usize` underflow instead of exiting
gracefully — so the claim, which names neither a mechanism that exists
nor a profile, fails as stated. -/
theorem c4_counterexample_exit_index :
    (¬ ∃ (menuInputs rest : List String) (k : Nat),
        get_option (list_options k).length menuInputs =
          (OptOutcome.ret 2, rest)) ∧
    (run Profile.debug (fun _ => none) (fun _ => "") 1 0 (fun _ => none)
        "todos.json" ["00"]).1 = RunOutcome.panicked := by
  constructor
  · rintro ⟨menuInputs, rest, k, h⟩
    have hlt := get_option_ret_lt _ _ _ _ h
    rw [list_options_length] at hlt
    split at hlt <;> omega
  · decide

/-- C4 amended: the dispatch's exit arm (`_ => break`) is reachable, but
not by an index one past "complete a todo": `get_option` only returns
indices below 2 at the main menu (first conjunct).  The arm is reached
exactly through the `usize` underflow on an input parsing to 0: in a
debug build that subtraction panics, so `run` never returns success
(second conjunct); in a release build it wraps to `usize::MAX`, the
`_ => break` arm runs, the loop ends and `run` returns success — shown
at the concrete input `"00"` on the empty store (third conjunct). -/
theorem c4_run_exit_profile_split :
    (∀ (menuInputs : List String) (i : Nat) (rest : List String) (k : Nat),
        get_option (list_options k).length menuInputs =
            (OptOutcome.ret i, rest) →
          i < 2) ∧
    (∀ (p : String → Option (List Todo)) (ser : List Todo → String)
        (fuel supply : Nat) (fs : Fs) (path : String)
        (inputs : List String),
        (run Profile.debug p ser fuel supply fs path inputs).1 ≠
          RunOutcome.success) ∧
    (run Profile.release (fun _ => none) (fun _ => "") 1 0 (fun _ => none)
        "todos.json" ["00"]).1 = RunOutcome.success := by
  refine ⟨?_, ?_, ?_⟩
  · intro menuInputs i rest k hget
    have hlt := get_option_ret_lt _ _ _ _ hget
    rw [list_options_length] at hlt
    split at hlt <;> omega
  · intro p ser fuel supply fs path inputs h
    simp only [run] at h
    exact runLoop_debug_ne_success ser fuel supply _ _ path inputs h
  · decide

end TodoRust
